import Mathlib

/-!
Verification of the thermal HardwareProperties JNI gateway
(com_android_server_HardwarePropertiesManagerService.cpp).

The gateway keeps a single cached service handle (`gThermalModule`) and a
cached result-object descriptor (`gCpuUsageInfoClassInfo.initMethod`).
Each query performs one synchronous HAL call whose callback copies the
returned list only when the thermal status code is SUCCESS; the list stays
empty otherwise.  Float values are never computed with, only copied, so we
model them by `Rat`; JNI 64-bit integers become `Int`.
-/

namespace HardwareProperties

/-- A HAL cooling device as consumed by the gateway: only `currentValue`
is read by `nativeGetFanSpeeds`. -/
structure CoolingDevice where
  currentValue : Rat
deriving DecidableEq

/-- A HAL temperature reading: sensor-type tag (read through
`static_cast<int>`) and the four float fields selected by `source`. -/
structure Temperature where
  type : Int
  currentValue : Rat
  throttlingThreshold : Rat
  shutdownThreshold : Rat
  vrThrottlingThreshold : Rat
deriving DecidableEq

/-- A HAL CPU usage entry: `active`/`total` times and the online flag. -/
structure CpuUsage where
  active : Int
  total : Int
  isOnline : Bool
deriving DecidableEq

/-- The caller-side `android.os.CpuUsageInfo` object, constructed through
the cached two-argument `(active, total)` constructor. -/
structure CpuUsageInfo where
  active : Int
  total : Int
deriving DecidableEq

/-- An abstract identity for a bound `IThermal` service connection. -/
abbrev IThermalHandle := Nat

/-- The gateway's process-wide mutable state: the cached service handle
`gThermalModule` (`none` = unbound) and whether
`gCpuUsageInfoClassInfo.initMethod` was resolved during registration. -/
structure GatewayState where
  gThermalModule : Option IThermalHandle
  initMethodResolved : Bool
deriving DecidableEq

/-- One synchronous HAL call outcome: whether the transport succeeded
(`Return.getStatus().isOk()`), the `ThermalStatus` code reported to the
callback, and the payload list the callback would receive. -/
structure HalReply (α : Type) where
  transportOk : Bool
  statusSuccess : Bool
  payload : List α
deriving DecidableEq

/-- The list each native function works on after its HAL call: the local
`hidl_vec` starts empty and is overwritten by the callback only when the
transport delivered the callback and the status code is SUCCESS. -/
def receivedList {α : Type} (r : HalReply α) : List α :=
  if r.transportOk && r.statusSuccess then r.payload else []

/-- `nativeInit`: look the service up by name only when `gThermalModule`
is still null; a failed lookup only logs. `lookup` is the value
`IThermal::getService` would return in this environment. -/
def nativeInit (lookup : Option IThermalHandle) (s : GatewayState) :
    GatewayState :=
  if s.gThermalModule = none then { s with gThermalModule := lookup } else s

/-- `nativeGetFanSpeeds`: empty array when unbound, else one float per
cooling device, copying `currentValue` in list order. -/
def nativeGetFanSpeeds (s : GatewayState) (r : HalReply CoolingDevice) :
    List Rat :=
  match s.gThermalModule with
  | none => []
  | some _ => (receivedList r).map (fun d => d.currentValue)

/-- The `switch (source)` of `nativeGetDeviceTemperatures`: which field a
matching reading contributes; an unrecognized `source` hits no case and
writes nothing. -/
def sourceValue (source : Int) (t : Temperature) : Option Rat :=
  if source = 0 then some t.currentValue
  else if source = 1 then some t.throttlingThreshold
  else if source = 2 then some t.shutdownThreshold
  else if source = 3 then some t.vrThrottlingThreshold
  else none

/-- `nativeGetDeviceTemperatures`: empty array when unbound, else the loop
appends `sourceValue source` for exactly the readings whose type tag
equals `type`. -/
def nativeGetDeviceTemperatures (s : GatewayState) (r : HalReply Temperature)
    (type source : Int) : List Rat :=
  match s.gThermalModule with
  | none => []
  | some _ =>
    (receivedList r).filterMap
      (fun t => if t.type = type then sourceValue source t else none)

/-- `nativeGetCpuUsages`: empty array when unbound or when the constructor
was not resolved; else an array with one slot per HAL entry, populated
with a `CpuUsageInfo` for online cores and left null for offline ones. -/
def nativeGetCpuUsages (s : GatewayState) (r : HalReply CpuUsage) :
    List (Option CpuUsageInfo) :=
  if s.gThermalModule.isNone || !s.initMethodResolved then []
  else
    (receivedList r).map
      (fun u => if u.isOnline then some ⟨u.active, u.total⟩ else none)

/-- `nativeGetFanSpeeds` as a state transformer: the function reads
`gThermalModule` but performs no assignment to any global. -/
def nativeGetFanSpeedsCall (s : GatewayState) (r : HalReply CoolingDevice) :
    GatewayState × List Rat :=
  (s, nativeGetFanSpeeds s r)

/-- `nativeGetDeviceTemperatures` as a state transformer. -/
def nativeGetDeviceTemperaturesCall (s : GatewayState)
    (r : HalReply Temperature) (type source : Int) :
    GatewayState × List Rat :=
  (s, nativeGetDeviceTemperatures s r type source)

/-- `nativeGetCpuUsages` as a state transformer. -/
def nativeGetCpuUsagesCall (s : GatewayState) (r : HalReply CpuUsage) :
    GatewayState × List (Option CpuUsageInfo) :=
  (s, nativeGetCpuUsages s r)

/-- `register_android_server_HardwarePropertiesManagerService`: resets the
handle to null and resolves the `CpuUsageInfo` constructor (the `OrDie`
helpers abort the process on failure, so on return it is resolved). -/
def registerService (_s : GatewayState) : GatewayState :=
  { gThermalModule := none, initMethodResolved := true }

/-- A HAL reply failed when the transport failed or the status code was
not SUCCESS. -/
def replyFailed {α : Type} (r : HalReply α) : Prop :=
  r.transportOk = false ∨ r.statusSuccess = false

/-- A bound gateway state used as a concrete test fixture. -/
def boundState : GatewayState := ⟨some 1, true⟩

/-- A successful temperature reply with type tags {5, 5, 7}: two readings
of type 5 and one of type 7, all field values distinct. -/
def tempsReply : HalReply Temperature :=
  ⟨true, true, [⟨5, 40, 60, 90, 55⟩, ⟨5, 41, 61, 91, 56⟩, ⟨7, 20, 30, 95, 50⟩]⟩

/-- A successful cooling-device reply with current values 12.5 and 30. -/
def fansReply : HalReply CoolingDevice := ⟨true, true, [⟨12.5⟩, ⟨30⟩]⟩

/-- A successful CPU-usage reply: one online core (100, 200) followed by
one offline core (5, 10). -/
def cpusReply : HalReply CpuUsage := ⟨true, true, [⟨100, 200, true⟩, ⟨5, 10, false⟩]⟩

/-- A failed reply (non-SUCCESS status) carrying a non-empty payload. -/
def failedFansReply : HalReply CoolingDevice := ⟨true, false, [⟨12.5⟩]⟩

/-- A failed temperature reply (non-SUCCESS status). -/
def failedTempsReply : HalReply Temperature := ⟨true, false, [⟨5, 40, 60, 90, 55⟩]⟩

/-- A failed CPU-usage reply (transport failure). -/
def failedCpusReply : HalReply CpuUsage := ⟨false, true, [⟨100, 200, true⟩]⟩

/-- Collapsing the copy loop: filtering entries through
`if p a then some (f a) else none` is filtering by `p`, then mapping `f`. -/
theorem filterMap_ite_some {α β : Type} (p : α → Prop) [DecidablePred p]
    (f : α → β) (l : List α) :
    (l.filterMap fun a => if p a then some (f a) else none)
      = (l.filter fun a => decide (p a)).map f := by
  induction l with
  | nil => rfl
  | cons a l ih =>
    by_cases h : p a <;>
      simp [List.filterMap_cons, List.filter_cons, h, ih]

/-- A failed HAL call leaves the local `hidl_vec` empty. -/
theorem receivedList_of_failed {α : Type} (r : HalReply α)
    (h : replyFailed r) : receivedList r = [] := by
  unfold receivedList
  rcases h with h | h <;> simp [h]

/-- C1: with a bound handle, `nativeGetDeviceTemperatures` returns exactly
the readings whose type tag equals `type`, mapped through the selector the
source code names: 0 ↦ currentValue, 1 ↦ throttlingThreshold,
2 ↦ shutdownThreshold, 3 ↦ vrThrottlingThreshold, with no mixing. -/
theorem getDeviceTemperatures_filter_and_select (s : GatewayState)
    (h : IThermalHandle) (r : HalReply Temperature) (ty : Int)
    (hb : s.gThermalModule = some h) :
    nativeGetDeviceTemperatures s r ty 0
        = ((receivedList r).filter fun t => decide (t.type = ty)).map
            (fun t => t.currentValue)
    ∧ nativeGetDeviceTemperatures s r ty 1
        = ((receivedList r).filter fun t => decide (t.type = ty)).map
            (fun t => t.throttlingThreshold)
    ∧ nativeGetDeviceTemperatures s r ty 2
        = ((receivedList r).filter fun t => decide (t.type = ty)).map
            (fun t => t.shutdownThreshold)
    ∧ nativeGetDeviceTemperatures s r ty 3
        = ((receivedList r).filter fun t => decide (t.type = ty)).map
            (fun t => t.vrThrottlingThreshold) := by
  have e : ∀ (src : Int) (f : Temperature → Rat),
      (∀ t, sourceValue src t = some (f t)) →
      nativeGetDeviceTemperatures s r ty src
        = ((receivedList r).filter fun t => decide (t.type = ty)).map f := by
    intro src f hf
    unfold nativeGetDeviceTemperatures
    rw [hb]
    simp only [hf]
    exact filterMap_ite_some _ f _
  exact ⟨e 0 _ (fun t => by simp [sourceValue]),
         e 1 _ (fun t => by simp [sourceValue]),
         e 2 _ (fun t => by simp [sourceValue]),
         e 3 _ (fun t => by simp [sourceValue])⟩

/-- C1 witness: on the fixture with type tags {5, 5, 7}, querying type 5
yields exactly the two matching readings per selector, and querying the
absent type 9 yields the empty sequence. -/
theorem getDeviceTemperatures_filter_and_select_witness :
    boundState.gThermalModule = some 1
    ∧ (nativeGetDeviceTemperatures boundState tempsReply 5 0
          = ((receivedList tempsReply).filter fun t => decide (t.type = 5)).map
              (fun t => t.currentValue)
        ∧ nativeGetDeviceTemperatures boundState tempsReply 5 1
          = ((receivedList tempsReply).filter fun t => decide (t.type = 5)).map
              (fun t => t.throttlingThreshold)
        ∧ nativeGetDeviceTemperatures boundState tempsReply 5 2
          = ((receivedList tempsReply).filter fun t => decide (t.type = 5)).map
              (fun t => t.shutdownThreshold)
        ∧ nativeGetDeviceTemperatures boundState tempsReply 5 3
          = ((receivedList tempsReply).filter fun t => decide (t.type = 5)).map
              (fun t => t.vrThrottlingThreshold))
    ∧ nativeGetDeviceTemperatures boundState tempsReply 5 0 = [40, 41]
    ∧ nativeGetDeviceTemperatures boundState tempsReply 5 1 = [60, 61]
    ∧ (nativeGetDeviceTemperatures boundState tempsReply 5 0).length = 2
    ∧ nativeGetDeviceTemperatures boundState tempsReply 9 0 = [] :=
  ⟨rfl, getDeviceTemperatures_filter_and_select boundState 1 tempsReply 5 rfl,
   by decide, by decide, by decide, by decide⟩

/-- C2: with a bound handle and a successful reply, `nativeGetFanSpeeds`
returns one value per cooling device, each equal to that device's
`currentValue`, in the service's order. -/
theorem getFanSpeeds_maps_currentValue (s : GatewayState)
    (h : IThermalHandle) (r : HalReply CoolingDevice)
    (hb : s.gThermalModule = some h) (ht : r.transportOk = true)
    (hs : r.statusSuccess = true) :
    nativeGetFanSpeeds s r = r.payload.map fun d => d.currentValue := by
  unfold nativeGetFanSpeeds
  rw [hb]
  unfold receivedList
  rw [ht, hs]
  rfl

/-- C2 witness: for devices with current values [12.5, 30] the result is
[12.5, 30] in that order. -/
theorem getFanSpeeds_maps_currentValue_witness :
    boundState.gThermalModule = some 1
    ∧ fansReply.transportOk = true
    ∧ fansReply.statusSuccess = true
    ∧ nativeGetFanSpeeds boundState fansReply
        = fansReply.payload.map (fun d => d.currentValue)
    ∧ nativeGetFanSpeeds boundState fansReply = [12.5, 30] := by
  refine ⟨rfl, rfl, rfl,
    getFanSpeeds_maps_currentValue boundState 1 fansReply rfl rfl rfl, ?_⟩
  simp [nativeGetFanSpeeds, boundState, fansReply, receivedList]

/-- C3: if the handle is unbound, or the remote call reports non-success
(failed transport or non-SUCCESS status), every query returns the empty
sequence; the functions are total, so no error reaches the caller. -/
theorem queries_degrade_to_empty (s : GatewayState)
    (r1 : HalReply CoolingDevice) (r2 : HalReply Temperature)
    (r3 : HalReply CpuUsage) (ty src : Int)
    (hfail : s.gThermalModule = none
      ∨ (replyFailed r1 ∧ replyFailed r2 ∧ replyFailed r3)) :
    nativeGetFanSpeeds s r1 = []
    ∧ nativeGetDeviceTemperatures s r2 ty src = []
    ∧ nativeGetCpuUsages s r3 = [] := by
  rcases hfail with hun | ⟨h1, h2, h3⟩
  · refine ⟨?_, ?_, ?_⟩
    · unfold nativeGetFanSpeeds; rw [hun]
    · unfold nativeGetDeviceTemperatures; rw [hun]
    · simp [nativeGetCpuUsages, hun]
  · refine ⟨?_, ?_, ?_⟩
    · unfold nativeGetFanSpeeds
      rw [receivedList_of_failed r1 h1]
      cases s.gThermalModule <;> simp
    · unfold nativeGetDeviceTemperatures
      rw [receivedList_of_failed r2 h2]
      cases s.gThermalModule <;> simp
    · unfold nativeGetCpuUsages
      rw [receivedList_of_failed r3 h3]
      simp

/-- C3 witness: a non-SUCCESS (or transport-failed) reply with a non-empty
payload still yields empty results on a bound state. -/
theorem queries_degrade_to_empty_witness :
    (boundState.gThermalModule = none
      ∨ (replyFailed failedFansReply ∧ replyFailed failedTempsReply
          ∧ replyFailed failedCpusReply))
    ∧ nativeGetFanSpeeds boundState failedFansReply = []
    ∧ nativeGetDeviceTemperatures boundState failedTempsReply 5 0 = []
    ∧ nativeGetCpuUsages boundState failedCpusReply = [] := by
  have hf : boundState.gThermalModule = none
      ∨ (replyFailed failedFansReply ∧ replyFailed failedTempsReply
          ∧ replyFailed failedCpusReply) :=
    Or.inr ⟨Or.inr rfl, Or.inr rfl, Or.inl rfl⟩
  exact ⟨hf, queries_degrade_to_empty boundState failedFansReply
    failedTempsReply failedCpusReply 5 0 hf⟩

/-- Applying `nativeInit` twice in the same environment is the same as
applying it once. -/
theorem nativeInit_self_comp (lookup : Option IThermalHandle)
    (t : GatewayState) :
    nativeInit lookup (nativeInit lookup t) = nativeInit lookup t := by
  by_cases h1 : t.gThermalModule = none
  · simp only [nativeInit, h1, if_pos]
    by_cases h2 : lookup = none <;> simp [h2]
  · simp [nativeInit, h1]

/-- C4: `nativeInit` is idempotent: N ≥ 1 calls (in a fixed lookup
environment) end in the same state as one call, and a call on a state
whose handle is already bound is a no-op (the handle is not replaced). -/
theorem nativeInit_idempotent (lookup : Option IThermalHandle)
    (s : GatewayState) (n : Nat) (hn : 1 ≤ n) :
    (nativeInit lookup)^[n] s = nativeInit lookup s
    ∧ ∀ h, s.gThermalModule = some h → nativeInit lookup s = s := by
  constructor
  · obtain ⟨m, rfl⟩ := Nat.exists_eq_add_of_le hn
    rw [Nat.add_comm]
    induction m with
    | zero => rw [Function.iterate_one]
    | succ k ih =>
      rw [Function.iterate_succ_apply', ih (by omega), nativeInit_self_comp]
  · intro h hh
    simp [nativeInit, hh]

/-- C4 witness: three calls starting from the unbound state with a
successful lookup end in the bound state reached by one call, and a call
on an already-bound state changes nothing. -/
theorem nativeInit_idempotent_witness :
    1 ≤ 3
    ∧ ((nativeInit (some 1))^[3] ⟨none, true⟩ = nativeInit (some 1) ⟨none, true⟩
        ∧ ∀ h, (⟨none, true⟩ : GatewayState).gThermalModule = some h →
            nativeInit (some 1) ⟨none, true⟩ = ⟨none, true⟩)
    ∧ nativeInit (some 2) boundState = boundState :=
  ⟨by decide, nativeInit_idempotent (some 1) ⟨none, true⟩ 3 (by decide),
   (nativeInit_idempotent (some 2) boundState 1 (by decide)).2 1 rfl⟩

/-- C5: with a bound handle, a resolved constructor and a successful
reply, `nativeGetCpuUsages` returns one slot per HAL entry in order:
online entries become objects built from that entry's (active, total)
pair, offline entries leave their slot null (not compacted), and the slot
count equals the HAL list length. -/
theorem getCpuUsages_slots (s : GatewayState) (h : IThermalHandle)
    (r : HalReply CpuUsage) (hb : s.gThermalModule = some h)
    (hm : s.initMethodResolved = true) (ht : r.transportOk = true)
    (hs : r.statusSuccess = true) :
    nativeGetCpuUsages s r
      = r.payload.map
          (fun u => if u.isOnline then some ⟨u.active, u.total⟩ else none)
    ∧ (nativeGetCpuUsages s r).length = r.payload.length := by
  have he : nativeGetCpuUsages s r
      = r.payload.map
          (fun u => if u.isOnline then some ⟨u.active, u.total⟩ else none) := by
    unfold nativeGetCpuUsages receivedList
    rw [hb, hm, ht, hs]
    rfl
  exact ⟨he, by rw [he, List.length_map]⟩

/-- C5 witness: for [online (100, 200), offline (5, 10)] the result is
[some (100, 200), none]: the offline slot is present but unpopulated. -/
theorem getCpuUsages_slots_witness :
    boundState.gThermalModule = some 1
    ∧ boundState.initMethodResolved = true
    ∧ cpusReply.transportOk = true
    ∧ cpusReply.statusSuccess = true
    ∧ (nativeGetCpuUsages boundState cpusReply
          = cpusReply.payload.map
              (fun u => if u.isOnline then some ⟨u.active, u.total⟩ else none)
        ∧ (nativeGetCpuUsages boundState cpusReply).length
            = cpusReply.payload.length)
    ∧ nativeGetCpuUsages boundState cpusReply = [some ⟨100, 200⟩, none] :=
  ⟨rfl, rfl, rfl, rfl,
   getCpuUsages_slots boundState 1 cpusReply rfl rfl rfl rfl, by decide⟩

/-- C6 counterexample: for the service reply
[{online: true, active: 100, total: 200}, {online: false, active: 5,
total: 10}] the returned sequence is not the one-element sequence holding
only the object (100, 200): it has two slots. -/
theorem getCpuUsages_example_not_singleton :
    nativeGetCpuUsages boundState cpusReply ≠ [some ⟨100, 200⟩]
    ∧ (nativeGetCpuUsages boundState cpusReply).length = 2 := by decide

/-- C6 amended: for that reply `nativeGetCpuUsages` returns a two-slot
sequence [object (100, 200), null]: one constructed object at the online
core's position and a null gap at the offline core's position. -/
theorem getCpuUsages_example_two_slots :
    nativeGetCpuUsages boundState cpusReply = [some ⟨100, 200⟩, none] := by
  decide

/-- C7: if the cached constructor was not resolved, `nativeGetCpuUsages`
returns the empty sequence for every service reply. -/
theorem getCpuUsages_requires_descriptor (s : GatewayState)
    (r : HalReply CpuUsage) (hm : s.initMethodResolved = false) :
    nativeGetCpuUsages s r = [] := by
  simp [nativeGetCpuUsages, hm]

/-- C7 witness: with a bound handle but an unresolved constructor, a
successful reply carrying an online core still yields no objects. -/
theorem getCpuUsages_requires_descriptor_witness :
    (⟨some 1, false⟩ : GatewayState).initMethodResolved = false
    ∧ nativeGetCpuUsages ⟨some 1, false⟩ cpusReply = [] :=
  ⟨rfl, getCpuUsages_requires_descriptor ⟨some 1, false⟩ cpusReply rfl⟩

/-- C8: with a bound handle and a source value outside 0–3, every entry is
silently dropped — the switch hits no case even for readings whose type
tag matches — and the empty sequence is returned. -/
theorem getDeviceTemperatures_unrecognized_source (s : GatewayState)
    (h : IThermalHandle) (r : HalReply Temperature) (ty src : Int)
    (hb : s.gThermalModule = some h) (hsrc : src < 0 ∨ 3 < src) :
    nativeGetDeviceTemperatures s r ty src = [] := by
  have hv : ∀ t, sourceValue src t = none := by
    intro t
    have h0 : src ≠ 0 := by omega
    have h1 : src ≠ 1 := by omega
    have h2 : src ≠ 2 := by omega
    have h3 : src ≠ 3 := by omega
    simp [sourceValue, h0, h1, h2, h3]
  unfold nativeGetDeviceTemperatures
  rw [hb]
  simp [hv]

/-- C8 witness: source 4 on the fixture reply, whose readings include
type-5 entries, returns the empty sequence when querying type 5. -/
theorem getDeviceTemperatures_unrecognized_source_witness :
    (boundState.gThermalModule = some 1 ∧ ((4 : Int) < 0 ∨ (3 : Int) < 4))
    ∧ nativeGetDeviceTemperatures boundState tempsReply 5 4 = [] :=
  ⟨⟨rfl, Or.inr (by decide)⟩,
   getDeviceTemperatures_unrecognized_source boundState 1 tempsReply 5 4 rfl
     (Or.inr (by decide))⟩

/-- C9: each query call leaves the gateway state exactly as it found it
(no query writes `gThermalModule`), and `nativeInit` never unbinds a
bound handle, so unbound → bound is the only transition. -/
theorem queries_preserve_handle (s : GatewayState)
    (r1 : HalReply CoolingDevice) (r2 : HalReply Temperature)
    (r3 : HalReply CpuUsage) (ty src : Int)
    (lookup : Option IThermalHandle) :
    (nativeGetFanSpeedsCall s r1).1 = s
    ∧ (nativeGetDeviceTemperaturesCall s r2 ty src).1 = s
    ∧ (nativeGetCpuUsagesCall s r3).1 = s
    ∧ ∀ h, s.gThermalModule = some h →
        (nativeInit lookup s).gThermalModule = some h := by
  refine ⟨rfl, rfl, rfl, ?_⟩
  intro h hh
  simp [nativeInit, hh]

/-- C9 witness: the frame property at the bound fixture state with the
fixture replies, and `nativeInit` keeping the bound handle. -/
theorem queries_preserve_handle_witness :
    (nativeGetFanSpeedsCall boundState fansReply).1 = boundState
    ∧ (nativeGetDeviceTemperaturesCall boundState tempsReply 5 0).1 = boundState
    ∧ (nativeGetCpuUsagesCall boundState cpusReply).1 = boundState
    ∧ ∀ h, boundState.gThermalModule = some h →
        (nativeInit none boundState).gThermalModule = some h :=
  queries_preserve_handle boundState fansReply tempsReply cpusReply 5 0 none

/-- C10: the number of values the temperature loop writes never exceeds
the received list's length (the buffer's size), so every write is in
bounds and the returned array is at most as long as the list. -/
theorem getDeviceTemperatures_length_le (s : GatewayState)
    (r : HalReply Temperature) (ty src : Int) :
    (nativeGetDeviceTemperatures s r ty src).length ≤ (receivedList r).length
    ∧ (nativeGetDeviceTemperatures s r ty src).length ≤ r.payload.length := by
  have h1 : (nativeGetDeviceTemperatures s r ty src).length
      ≤ (receivedList r).length := by
    unfold nativeGetDeviceTemperatures
    cases s.gThermalModule
    · simp
    · exact List.length_filterMap_le _ _
  have h2 : (receivedList r).length ≤ r.payload.length := by
    unfold receivedList
    split <;> simp
  exact ⟨h1, h1.trans h2⟩

end HardwareProperties
